import Mathlib

/-!
Verification development for the serialport-rs library.

This file gives a shallow embedding, in Lean 4, of the parts of the
serialport-rs source that the specification talks about:

* the cross-platform configuration types and the builder in `src/lib.rs`
  (`FlowControl`, `DataBits`, `Parity`, `StopBits`, `SerialPortBuilder`,
  `new`, the seven setters, and the error conversions), and
* the POSIX enumeration code in `src/posix/enumerate.rs`
  (`parse_modalias`, `udev_property_encoded_or_replaced_as_string`,
  `udev_restore_spaces`, `udev_hex_property_as_int`, `port_type`, and the
  per-device loop of `available_ports` on the linux/libudev and macOS/iOS
  paths).

Rust strings are modelled as Lean `String` values; the byte-indexed slicing
done by `parse_modalias` is modelled on the character list of the string,
which agrees with the byte view on the ASCII inputs the format uses.
Machine integers (`u8`, `u16`, `u32`) are modelled as `Nat` with explicit
range guards where the code checks them. Fallible Rust code returning
`Option`/`Result` is modelled with `Option`/`Except`. Effectful lookups
against the udev device (property reads, the parent walk) are modelled as
fields of an abstract device record, and the third-party
`unescaper::unescape` function is an abstract parameter.
-/

namespace Serialport

/-! ## Configuration enums, from src/lib.rs -/

/-- Number of bits per character (`DataBits` in src/lib.rs). -/
inductive DataBits where
  | Five
  | Six
  | Seven
  | Eight
deriving DecidableEq

/-- Parity checking modes (`Parity` in src/lib.rs). -/
inductive Parity where
  | None
  | Odd
  | Even
deriving DecidableEq

/-- Number of stop bits (`StopBits` in src/lib.rs). -/
inductive StopBits where
  | One
  | Two
deriving DecidableEq

/-- Flow control modes (`FlowControl` in src/lib.rs). -/
inductive FlowControl where
  | None
  | Software
  | Hardware
deriving DecidableEq

/-- `impl FromStr for FlowControl` in src/lib.rs: a match on exact string
literals.  The Rust function returns `Result<Self, ()>`; `Option` models it. -/
def FlowControl.fromStr (s : String) : Option FlowControl :=
  if s = "None" ∨ s = "none" ∨ s = "n" then some FlowControl.None
  else if s = "Software" ∨ s = "software" ∨ s = "SW" ∨ s = "sw" ∨ s = "s" then
    some FlowControl.Software
  else if s = "Hardware" ∨ s = "hardware" ∨ s = "HW" ∨ s = "hw" ∨ s = "h" then
    some FlowControl.Hardware
  else none

/-- `impl fmt::Display for FlowControl` in src/lib.rs. -/
def FlowControl.display : FlowControl → String
  | FlowControl.None => "None"
  | FlowControl.Software => "Software"
  | FlowControl.Hardware => "Hardware"

/-! ## Error type and conversions, from src/lib.rs -/

/-- The host I/O error kinds (`std::io::ErrorKind`) that matter here, with
the stable variants of the Rust standard library. -/
inductive IoErrorKind where
  | NotFound
  | PermissionDenied
  | ConnectionRefused
  | ConnectionReset
  | ConnectionAborted
  | NotConnected
  | AddrInUse
  | AddrNotAvailable
  | BrokenPipe
  | AlreadyExists
  | WouldBlock
  | InvalidInput
  | InvalidData
  | TimedOut
  | WriteZero
  | Interrupted
  | Unsupported
  | UnexpectedEof
  | OutOfMemory
  | Other
deriving DecidableEq

/-- Categories of errors (`ErrorKind` in src/lib.rs). -/
inductive ErrorKind where
  | NoDevice
  | InvalidInput
  | Unknown
  | Io (kind : IoErrorKind)
deriving DecidableEq

/-- An error type (`Error` in src/lib.rs): a kind plus a description. -/
structure Error where
  kind : ErrorKind
  description : String
deriving DecidableEq

/-- A host I/O error (`std::io::Error`): kind plus message. -/
structure IoError where
  kind : IoErrorKind
  message : String
deriving DecidableEq

/-- `impl From<io::Error> for Error` in src/lib.rs: wraps the host kind in
`ErrorKind::Io` and keeps the formatted message. -/
def Error.fromIo (e : IoError) : Error :=
  { kind := ErrorKind.Io e.kind, description := e.message }

/-- The kind mapping of `impl From<Error> for io::Error` in src/lib.rs. -/
def ErrorKind.toIoKind : ErrorKind → IoErrorKind
  | ErrorKind.NoDevice => IoErrorKind.NotFound
  | ErrorKind.InvalidInput => IoErrorKind.InvalidInput
  | ErrorKind.Unknown => IoErrorKind.Other
  | ErrorKind.Io kind => kind

/-- `impl From<Error> for io::Error` in src/lib.rs. -/
def Error.toIo (e : Error) : IoError :=
  { kind := e.kind.toIoKind, message := e.description }

/-! ## Duration and the builder, from src/lib.rs -/

/-- `std::time::Duration`: seconds plus a sub-second nanosecond part. -/
structure Duration where
  secs : Nat
  nanos : Nat
deriving DecidableEq

/-- `Duration::from_millis`. -/
def Duration.fromMillis (millis : Nat) : Duration :=
  { secs := millis / 1000, nanos := millis % 1000 * 1000000 }

/-- A struct containing all serial port settings (`SerialPortBuilder` in
src/lib.rs).  `baud_rate` is a `u32` in Rust, modelled as `Nat`. -/
structure SerialPortBuilder where
  path : String
  baud_rate : Nat
  data_bits : DataBits
  flow_control : FlowControl
  parity : Parity
  stop_bits : StopBits
  timeout : Duration
deriving DecidableEq

/-- The crate-level constructor `new(path, baud_rate)` in src/lib.rs. -/
def new (path : String) (baud_rate : Nat) : SerialPortBuilder :=
  { path := path
    baud_rate := baud_rate
    data_bits := DataBits.Eight
    flow_control := FlowControl.None
    parity := Parity.None
    stop_bits := StopBits.One
    timeout := Duration.fromMillis 0 }

/-- Setter `SerialPortBuilder::path`. -/
def SerialPortBuilder.setPath (b : SerialPortBuilder) (path : String) :
    SerialPortBuilder :=
  { b with path := path }

/-- Setter `SerialPortBuilder::baud_rate`. -/
def SerialPortBuilder.setBaudRate (b : SerialPortBuilder) (baud_rate : Nat) :
    SerialPortBuilder :=
  { b with baud_rate := baud_rate }

/-- Setter `SerialPortBuilder::data_bits`. -/
def SerialPortBuilder.setDataBits (b : SerialPortBuilder) (data_bits : DataBits) :
    SerialPortBuilder :=
  { b with data_bits := data_bits }

/-- Setter `SerialPortBuilder::flow_control`. -/
def SerialPortBuilder.setFlowControl (b : SerialPortBuilder)
    (flow_control : FlowControl) : SerialPortBuilder :=
  { b with flow_control := flow_control }

/-- Setter `SerialPortBuilder::parity`. -/
def SerialPortBuilder.setParity (b : SerialPortBuilder) (parity : Parity) :
    SerialPortBuilder :=
  { b with parity := parity }

/-- Setter `SerialPortBuilder::stop_bits`. -/
def SerialPortBuilder.setStopBits (b : SerialPortBuilder) (stop_bits : StopBits) :
    SerialPortBuilder :=
  { b with stop_bits := stop_bits }

/-- Setter `SerialPortBuilder::timeout`. -/
def SerialPortBuilder.setTimeout (b : SerialPortBuilder) (timeout : Duration) :
    SerialPortBuilder :=
  { b with timeout := timeout }

/-! ## USB port info and modalias parsing, from src/posix/enumerate.rs -/

/-- Information about a USB device attached to a serial port (`UsbPortInfo`
in src/lib.rs).  `vid` and `pid` are `u16` values, `interface` a `u8`,
modelled as `Nat`; the `interface` field is the one behind the
`usbportinfo-interface` feature. -/
structure UsbPortInfo where
  vid : Nat
  pid : Nat
  serial_number : Option String
  manufacturer : Option String
  product : Option String
  interface : Option Nat
deriving DecidableEq

/-- The hardware type of a serial port (`SerialPortType` in src/lib.rs). -/
inductive SerialPortType where
  | UsbPort (info : UsbPortInfo)
  | PciPort
  | BluetoothPort
  | Unknown
deriving DecidableEq

/-- Whether a character is an ASCII hex digit, as accepted by
`char::to_digit(16)` in Rust. -/
def isHexDigit (c : Char) : Bool :=
  (decide ('0' ≤ c) && decide (c ≤ '9')) ||
  (decide ('a' ≤ c) && decide (c ≤ 'f')) ||
  (decide ('A' ≤ c) && decide (c ≤ 'F'))

/-- The numeric value of an ASCII hex digit. -/
def hexVal (c : Char) : Nat :=
  if decide ('0' ≤ c) && decide (c ≤ '9') then c.toNat - '0'.toNat
  else if decide ('a' ≤ c) && decide (c ≤ 'f') then c.toNat - 'a'.toNat + 10
  else c.toNat - 'A'.toNat + 10

/-- Rust `uN::from_str_radix(s, 16)` for an unsigned integer type whose
exclusive upper bound is `bound` (`2 ^ 16` for `u16`, `2 ^ 8` for `u8`):
an empty string is rejected, a single leading plus sign is allowed (a minus
sign is not a valid digit for an unsigned type), every remaining character
must be a hex digit, and a value reaching `bound` is a positive overflow.
Every failure case is an error, modelled as `none`. -/
def fromStrRadix16 (s : List Char) (bound : Nat) : Option Nat :=
  match s with
  | [] => none
  | c :: rest =>
    let digits := if c = '+' then rest else s
    if digits.isEmpty then none
    else if digits.all isHexDigit then
      let v := digits.foldl (fun a c => a * 16 + hexVal c) 0
      if v < bound then some v else none
    else none

/-- Whether `pat` occurs at the head of `s`. -/
def matchesAt : List Char → List Char → Bool
  | [], _ => true
  | _ :: _, [] => false
  | p :: ps, c :: cs => p = c && matchesAt ps cs

/-- Rust `str::find`: the position of the first occurrence of `pat` in `s`,
as a character index (it is a byte index in Rust; the two agree on ASCII). -/
def listFind (pat : List Char) : List Char → Option Nat
  | [] => if pat.isEmpty then some 0 else none
  | c :: cs =>
    if matchesAt pat (c :: cs) then some 0
    else (listFind pat cs).map (· + 1)

/-- Rust `str::get(i..)`: the tail of `s` from position `i`, or `None` when
`i` is out of range. -/
def sliceFrom (s : List Char) (i : Nat) : Option (List Char) :=
  if i ≤ s.length then some (s.drop i) else none

/-- Rust `str::get(..i)`: the first `i` characters of `s`, or `None` when
`i` is out of range. -/
def sliceTo (s : List Char) (i : Nat) : Option (List Char) :=
  if i ≤ s.length then some (s.take i) else none

/-- Rust `str::get(a..b)`: the characters of `s` from `a` (inclusive) to
`b` (exclusive), or `None` when the range is invalid or out of bounds. -/
def slice (s : List Char) (a b : Nat) : Option (List Char) :=
  if a ≤ b ∧ b ≤ s.length then some ((s.drop a).take (b - a)) else none

/-- `parse_modalias` in src/posix/enumerate.rs: parses a device-id string
such as `usb:v303Ap1001d0101dcEFdsc02dp01ic02isc02ip00in00` into a
`UsbPortInfo`.  Every slice access uses the checked `get` (here the
`slice*` helpers) and every numeric conversion uses `from_str_radix`, with
failures short-circuiting to `None` via `?` (here `Option.bind`); the
optional interface number is parsed with `and_then` chains so its failure
only leaves the field empty. -/
def parse_modalias (moda : String) : Option UsbPortInfo := do
  -- Find the start of the string, will start with "usb:"
  let mod_start ← listFind "usb:v".toList moda.toList
  -- Tail to update while searching.
  let mod_tail ← sliceFrom moda.toList (mod_start + 5)
  -- The next four characters should be hex values of the vendor.
  let vid ← sliceTo mod_tail 4
  let mod_tail ← sliceFrom mod_tail 4
  -- The next portion we care about is the device product ID.
  let pid_start ← listFind ['p'] mod_tail
  let pid ← slice mod_tail (pid_start + 1) (pid_start + 5)
  let vidN ← fromStrRadix16 vid (2 ^ 16)
  let pidN ← fromStrRadix16 pid (2 ^ 16)
  some
    { vid := vidN
      pid := pidN
      serial_number := none
      manufacturer := none
      product := none
      -- Only attempt to find the interface if the feature is enabled.
      interface :=
        (sliceFrom mod_tail (pid_start + 4)).bind fun mod_tail =>
          (listFind "in".toList mod_tail).bind fun i_start =>
            (slice mod_tail (i_start + 2) (i_start + 4)).bind fun interface =>
              fromStrRadix16 interface (2 ^ 8) }

/-! ## udev property lookup and the linux/libudev scan,
from src/posix/enumerate.rs

A udev device is modelled by the outcomes of the effectful lookups the
code performs on it: `props` stands for
`d.property_value(key).and_then(OsStr::to_str)` (a property whose value is
not valid UTF-8 behaves like an absent one, exactly as in
`udev_property_as_string`), `parent` for `d.parent()` with the parent
reduced to its `driver()` name, `devnode` for
`d.devnode().and_then(Path::to_str)`, `opensOk` for whether
`crate::new(path, 9600).open()` succeeds, and `parentModalias` for the
result of walking the parents with `find_usb_interface_from_parents` and
reading their `MODALIAS` property via `get_modalias_from_device`.  The
third-party `unescaper::unescape` (a `Result`-returning string unescaper)
is passed in as an abstract `unescape : String → Option String`. -/

/-- ASCII lowercasing of a single character, used to speak about
letter-casings of the textual flow-control forms. -/
def lowerAscii (c : Char) : Char :=
  if decide ('A' ≤ c) && decide (c ≤ 'Z') then Char.ofNat (c.toNat + 32) else c

/-- `udev_restore_spaces` in src/posix/enumerate.rs: converts the
underscores of `udev_replace_whitespace` back to spaces. -/
def udev_restore_spaces (source : String) : String :=
  String.mk (source.toList.map fun c => if c = '_' then ' ' else c)

/-- `udev_property_encoded_or_replaced_as_string` in
src/posix/enumerate.rs: looks the property up under its encoded key and
unescapes it, falls back to the replaced key when that is absent or fails
to decode, and restores spaces in the outcome. -/
def udev_property_encoded_or_replaced_as_string
    (unescape : String → Option String) (props : String → Option String)
    (encoded_key replaced_key : String) : Option String :=
  ((((props encoded_key).bind fun s => unescape s).orElse
      fun _ => props replaced_key).map udev_restore_spaces)

/-- The composition used for the usb manufacturer and product strings in
the `Some("usb")` branch of `port_type`: the live encoded-or-replaced
lookup, with the hardware-database property as fallback via `or_else`. -/
def live_then_database (unescape : String → Option String)
    (props : String → Option String) (encoded_key replaced_key db_key : String) :
    Option String :=
  (udev_property_encoded_or_replaced_as_string unescape props encoded_key
      replaced_key).orElse
    fun _ => props db_key

/-- `udev_hex_property_as_int` in src/posix/enumerate.rs, with
`from_str_radix` instantiated at an unsigned type of exclusive bound
`bound`: an absent property is a "key not found" error and a
non-hex value a "value not hex string" error. -/
def udev_hex_property_as_int (props : String → Option String) (key : String)
    (bound : Nat) : Except Error Nat :=
  match props key with
  | some hex_str =>
    match fromStrRadix16 hex_str.toList bound with
    | some num => Except.ok num
    | none => Except.error ⟨ErrorKind.Unknown, "value not hex string"⟩
  | none => Except.error ⟨ErrorKind.Unknown, "key not found"⟩

/-- The parent of a udev device, reduced to its `driver()` name. -/
structure UdevParent where
  driver : Option String
deriving DecidableEq

/-- A udev `tty` device as seen by the linux/libudev `available_ports`
loop; see the section comment for the reading of the fields. -/
structure UdevDevice where
  parent : Option UdevParent
  devnode : Option String
  props : String → Option String
  parentModalias : Option String
  opensOk : Bool

/-- `port_type` in src/posix/enumerate.rs (linux/libudev): classifies a
device by its `ID_BUS` property.  A usb device is classified from the
`ID_VENDOR_ID` and `ID_MODEL_ID` hex properties (an invalid one is an
error, propagated by `?`), with manufacturer and product strings from the
live encoded-or-replaced properties and the hardware database as fallback;
a pci device with all five `ID_USB_*` properties present is classified the
same way from those; a device without `ID_BUS` is classified from the
modalias of its usb-interface parent when that parses, `Unknown`
otherwise; any other bus is `Unknown`. -/
def port_type (unescape : String → Option String) (d : UdevDevice) :
    Except Error SerialPortType :=
  match d.props "ID_BUS" with
  | some "usb" => do
    let serial_number := d.props "ID_SERIAL_SHORT"
    let manufacturer :=
      live_then_database unescape d.props "ID_VENDOR_ENC" "ID_VENDOR"
        "ID_VENDOR_FROM_DATABASE"
    let product :=
      live_then_database unescape d.props "ID_MODEL_ENC" "ID_MODEL"
        "ID_MODEL_FROM_DATABASE"
    let vid ← udev_hex_property_as_int d.props "ID_VENDOR_ID" (2 ^ 16)
    let pid ← udev_hex_property_as_int d.props "ID_MODEL_ID" (2 ^ 16)
    Except.ok (SerialPortType.UsbPort
      { vid := vid
        pid := pid
        serial_number := serial_number
        manufacturer := manufacturer
        product := product
        interface :=
          (udev_hex_property_as_int d.props "ID_USB_INTERFACE_NUM" (2 ^ 8)).toOption })
  | some "pci" =>
    if (d.props "ID_USB_VENDOR_ID").isSome ∧ (d.props "ID_USB_MODEL_ID").isSome ∧
        (d.props "ID_USB_VENDOR").isSome ∧ (d.props "ID_USB_MODEL").isSome ∧
        (d.props "ID_USB_SERIAL_SHORT").isSome then do
      let manufacturer :=
        udev_property_encoded_or_replaced_as_string unescape d.props
          "ID_USB_VENDOR_ENC" "ID_USB_VENDOR"
      let product :=
        udev_property_encoded_or_replaced_as_string unescape d.props
          "ID_USB_MODEL_ENC" "ID_USB_MODEL"
      let vid ← udev_hex_property_as_int d.props "ID_USB_VENDOR_ID" (2 ^ 16)
      let pid ← udev_hex_property_as_int d.props "ID_USB_MODEL_ID" (2 ^ 16)
      Except.ok (SerialPortType.UsbPort
        { vid := vid
          pid := pid
          serial_number := d.props "ID_USB_SERIAL_SHORT"
          manufacturer := manufacturer
          product := product
          interface :=
            (udev_hex_property_as_int d.props "ID_USB_INTERFACE_NUM" (2 ^ 8)).toOption })
    else Except.ok SerialPortType.PciPort
  | none =>
    match d.parentModalias.bind fun m => parse_modalias m with
    | some port_info => Except.ok (SerialPortType.UsbPort port_info)
    | none => Except.ok SerialPortType.Unknown
  | some _ => Except.ok SerialPortType.Unknown

/-- A device-independent serial port record (`SerialPortInfo` in
src/lib.rs). -/
structure SerialPortInfo where
  port_name : String
  port_type : SerialPortType
deriving DecidableEq

/-- The body of the linux/libudev `available_ports` loop for one device:
a device without parent, devnode, or UTF-8 devnode path is passed over; a
`serial8250` node that fails to open is skipped; and `port_type` errors
are caught so that the device is skipped instead of aborting the scan. -/
def scan_device (unescape : String → Option String) (d : UdevDevice) :
    Option SerialPortInfo :=
  match d.parent with
  | none => none
  | some p =>
    match d.devnode with
    | none => none
    | some path =>
      if (match p.driver with
          | some drv => drv = "serial8250" && !d.opensOk
          | none => false) then
        none
      else
        match port_type unescape d with
        | Except.ok pt => some { port_name := path, port_type := pt }
        | Except.error _ => none

/-- The linux/libudev `available_ports` in src/posix/enumerate.rs, given
the outcome `scan` of setting up the enumerator and scanning the `tty`
subsystem (the `?` operators before the loop propagate a scan-level
failure): the loop pushes a record for every device `scan_device`
accepts. -/
def available_ports_linux (unescape : String → Option String)
    (scan : Except Error (List UdevDevice)) :
    Except Error (List SerialPortInfo) :=
  match scan with
  | Except.error e => Except.error e
  | Except.ok devices => Except.ok (devices.filterMap (scan_device unescape))

/-! ## The macOS/iOS scan, from src/posix/enumerate.rs

A matched IOKit service is modelled by the outcomes of the calls the loop
makes on it: `props_ok` stands for `IORegistryEntryCreateCFProperties`
returning `KERN_SUCCESS`, and `callout`/`dialin` for looking the
`IOCalloutDevice`/`IODialinDevice` keys up in the resulting dictionary and
extracting a string (`some path` when every step succeeds; `none` for any
of the three failure modes, each of which makes the loop return an
error).  `ptype` is the result of the macOS `port_type`, which is total
(it returns a `SerialPortType`, not a `Result`). -/

/-- A matched IOKit modem service as seen by the macOS/iOS
`available_ports` loop. -/
structure MacDevice where
  props_ok : Bool
  callout : Option String
  dialin : Option String
  ptype : SerialPortType
deriving DecidableEq

/-- The body of the macOS/iOS `available_ports` loop for one service: a
failure to read the property dictionary, or to obtain either of the
callout and dialin device paths, returns an error from `available_ports`
itself; on success the loop pushes one record per key. -/
def mac_scan_device (d : MacDevice) : Except Error (List SerialPortInfo) :=
  if !d.props_ok then
    Except.error ⟨ErrorKind.Unknown, "ERROR"⟩
  else do
    let callout_path ←
      match d.callout with
      | some path => Except.ok path
      | none => Except.error ⟨ErrorKind.Unknown, "Key IOCalloutDevice missing in dict"⟩
    let dialin_path ←
      match d.dialin with
      | some path => Except.ok path
      | none => Except.error ⟨ErrorKind.Unknown, "Key IODialinDevice missing in dict"⟩
    Except.ok [{ port_name := callout_path, port_type := d.ptype },
               { port_name := dialin_path, port_type := d.ptype }]

/-- The macOS/iOS `available_ports` loop in src/posix/enumerate.rs over
the matched services: the records accumulate in order, and the first
per-device error is returned from the whole function. -/
def available_ports_mac (devices : List MacDevice) :
    Except Error (List SerialPortInfo) :=
  devices.foldlM (fun acc d => (mac_scan_device d).map fun l => acc ++ l) []

/-! ## Concrete devices for witnesses and counterexamples -/

/-- An unescape function that accepts every string unchanged. -/
def unescapeId : String → Option String := fun s => some s

/-- An unescape function that rejects every string. -/
def unescapeFail : String → Option String := fun _ => none

/-- A udev device on the usb bus whose `ID_VENDOR_ID` and `ID_MODEL_ID`
properties are absent: `port_type` fails on it with "key not found". -/
def usbNoVidDevice : UdevDevice :=
  { parent := some { driver := some "cp210x" }
    devnode := some "/dev/ttyUSB7"
    props := fun key => if key = "ID_BUS" then some "usb" else none
    parentModalias := none
    opensOk := true }

/-- A udev device with an unrecognized bus type, all guards passing. -/
def platformBusDevice : UdevDevice :=
  { parent := some { driver := some "imx21-uart" }
    devnode := some "/dev/ttymxc0"
    props := fun key => if key = "ID_BUS" then some "platform" else none
    parentModalias := none
    opensOk := true }

/-- A well-behaved macOS modem service. -/
def macGoodDevice : MacDevice :=
  { props_ok := true
    callout := some "/dev/cu.usbserial-0001"
    dialin := some "/dev/tty.usbserial-0001"
    ptype := SerialPortType.Unknown }

/-- A macOS modem service whose property dictionary cannot be read. -/
def macBadDevice : MacDevice :=
  { props_ok := false
    callout := none
    dialin := none
    ptype := SerialPortType.Unknown }

/-- A property table holding a decodable encoded vendor string alongside a
replaced-form vendor string and a database fallback string. -/
def propsAll : String → Option String := fun key =>
  if key = "ID_VENDOR_ENC" then some "Encoded_Vendor"
  else if key = "ID_VENDOR" then some "Replaced_Vendor"
  else if key = "ID_VENDOR_FROM_DATABASE" then some "Database Vendor"
  else none

/-- A successful `fromStrRadix16` stays below its bound: the conversion
checks for positive overflow. -/
theorem fromStrRadix16_lt (s : List Char) (bound v : Nat)
    (h : fromStrRadix16 s bound = some v) : v < bound := by
  cases s with
  | nil => simp [fromStrRadix16] at h
  | cons c rest =>
    unfold fromStrRadix16 at h
    dsimp only at h
    repeat' split at h
    all_goals simp_all

/-- C1: on the device-id string
`usb:v303Ap1001d0101dcEFdsc02dp01ic02isc02ip00in0C`, `parse_modalias`
returns a `UsbPortInfo` with vendor id `0x303A`, product id `0x1001` and
interface number `0x0C` (and no serial number, manufacturer or product
string); on each of `""`, `"usb"`, `"usb:"`, `"usb:vdcdc"` and
`"usb:pdcdc"` it returns no match. -/
theorem parse_modalias_examples :
    parse_modalias "usb:v303Ap1001d0101dcEFdsc02dp01ic02isc02ip00in0C" =
      some { vid := 0x303A, pid := 0x1001, serial_number := none,
             manufacturer := none, product := none, interface := some 0x0C } ∧
    parse_modalias "" = none ∧
    parse_modalias "usb" = none ∧
    parse_modalias "usb:" = none ∧
    parse_modalias "usb:vdcdc" = none ∧
    parse_modalias "usb:pdcdc" = none := by
  refine ⟨?_, ?_, ?_, ?_, ?_, ?_⟩ <;> decide

/-- C2: `parse_modalias` is total: on every input string it returns either
`none` or `some info`, and in the latter case the result is a fully formed
`UsbPortInfo`: the vendor and product ids are in the `u16` range, the
string fields are all empty, and the optional interface number, when
present, is in the `u8` range.  Every slice access and numeric conversion
in the embedding is guarded by an `Option`, mirroring the checked `get`
and `from_str_radix` calls of the source. -/
theorem parse_modalias_total (s : String) :
    parse_modalias s = none ∨
    ∃ info, parse_modalias s = some info ∧
      info.vid < 2 ^ 16 ∧ info.pid < 2 ^ 16 ∧
      info.serial_number = none ∧ info.manufacturer = none ∧
      info.product = none ∧
      (info.interface = none ∨ ∃ n, info.interface = some n ∧ n < 2 ^ 8) := by
  cases h : parse_modalias s with
  | none => exact Or.inl rfl
  | some info =>
    right
    refine ⟨info, rfl, ?_⟩
    rw [parse_modalias] at h
    simp only [bind, Option.bind_eq_some, Option.some.injEq] at h
    obtain ⟨ms, hms, mt, hmt, vid, hvid, mt2, hmt2, ps, hps, pid, hpid, vn, hvn, pn, hpn,
      hinfo⟩ := h
    subst hinfo
    refine ⟨fromStrRadix16_lt _ _ _ hvn, fromStrRadix16_lt _ _ _ hpn, rfl, rfl, rfl, ?_⟩
    dsimp only
    cases hE : (sliceFrom mt2 (ps + 4)).bind fun mt3 =>
        (listFind "in".toList mt3).bind fun i_start =>
          (slice mt3 (i_start + 2) (i_start + 4)).bind fun interface =>
            fromStrRadix16 interface (2 ^ 8) with
    | none => exact Or.inl rfl
    | some n =>
      refine Or.inr ⟨n, rfl, ?_⟩
      simp only [Option.bind_eq_some] at hE
      obtain ⟨t, ht, i, hi, x, hx, hfx⟩ := hE
      exact fromStrRadix16_lt _ _ _ hfx

/-- C3: converting an `Error` into a host I/O error maps `NoDevice` to
`NotFound`, `InvalidInput` to `InvalidInput`, `Unknown` to `Other`, and
`Io k` to `k`; hence for every host kind `k`, wrapping an I/O error of
kind `k` into an `Error` and converting back yields kind `k` again. -/
theorem error_io_kind_roundtrip :
    (∀ d : String, (Error.toIo ⟨ErrorKind.NoDevice, d⟩).kind = IoErrorKind.NotFound) ∧
    (∀ d : String, (Error.toIo ⟨ErrorKind.InvalidInput, d⟩).kind = IoErrorKind.InvalidInput) ∧
    (∀ d : String, (Error.toIo ⟨ErrorKind.Unknown, d⟩).kind = IoErrorKind.Other) ∧
    (∀ (k : IoErrorKind) (d : String), (Error.toIo ⟨ErrorKind.Io k, d⟩).kind = k) ∧
    (∀ e : IoError, (Error.fromIo e).kind = ErrorKind.Io e.kind) ∧
    (∀ e : IoError, (Error.toIo (Error.fromIo e)).kind = e.kind) := by
  exact ⟨fun _ => rfl, fun _ => rfl, fun _ => rfl, fun _ _ => rfl, fun _ => rfl, fun _ => rfl⟩

/-- C10: `FlowControl::from_str` succeeds exactly on the thirteen literal
strings of the source match, each mapping to its variant, and fails on
every other string; in particular the `Display` output of every variant
parses back to that variant. -/
theorem flowControl_fromStr_exact :
    (∀ (s : String) (fc : FlowControl),
      FlowControl.fromStr s = some fc ↔
        (fc = FlowControl.None ∧ (s = "None" ∨ s = "none" ∨ s = "n")) ∨
        (fc = FlowControl.Software ∧
          (s = "Software" ∨ s = "software" ∨ s = "SW" ∨ s = "sw" ∨ s = "s")) ∨
        (fc = FlowControl.Hardware ∧
          (s = "Hardware" ∨ s = "hardware" ∨ s = "HW" ∨ s = "hw" ∨ s = "h"))) ∧
    (∀ fc : FlowControl, FlowControl.fromStr fc.display = some fc) := by
  constructor
  · intro s fc
    constructor
    · intro h
      unfold FlowControl.fromStr at h
      split at h
      · cases h; rename_i hs; exact Or.inl ⟨rfl, hs⟩
      · split at h
        · cases h; rename_i hs; exact Or.inr (Or.inl ⟨rfl, hs⟩)
        · split at h
          · cases h; rename_i hs; exact Or.inr (Or.inr ⟨rfl, hs⟩)
          · cases h
    · rintro (⟨rfl, hs⟩ | ⟨rfl, hs⟩ | ⟨rfl, hs⟩) <;>
        rcases hs with rfl | rfl | rfl | rfl | rfl <;> rfl
  · rintro (_ | _ | _) <;> rfl

/-- C10 witness: a concrete instance of the characterization, applying it
to the string `"sw"`. -/
theorem flowControl_fromStr_exact_witness :
    FlowControl.fromStr "sw" = some FlowControl.Software :=
  (flowControl_fromStr_exact.1 "sw" FlowControl.Software).mpr
    (Or.inr (Or.inl ⟨rfl, Or.inr (Or.inr (Or.inr (Or.inl rfl)))⟩))

/-- C7 counterexample: the textual form is not accepted case-insensitively.
The string `"NONE"` is a letter-casing of `"none"`, yet
`FlowControl::from_str` rejects it. -/
theorem flowControl_fromStr_rejects_upper :
    "NONE".toList.map lowerAscii = "none".toList ∧
    FlowControl.fromStr "NONE" = none := by
  exact ⟨by decide, by decide⟩

/-- C7 amended: `FlowControl::from_str` accepts the textual forms only in
the exact spellings listed in the source: the thirteen literals `"None"`,
`"none"`, `"n"`, `"Software"`, `"software"`, `"SW"`, `"sw"`, `"s"`,
`"Hardware"`, `"hardware"`, `"HW"`, `"hw"`, `"h"`, each mapping to its
variant. -/
theorem flowControl_fromStr_literals :
    FlowControl.fromStr "None" = some FlowControl.None ∧
    FlowControl.fromStr "none" = some FlowControl.None ∧
    FlowControl.fromStr "n" = some FlowControl.None ∧
    FlowControl.fromStr "Software" = some FlowControl.Software ∧
    FlowControl.fromStr "software" = some FlowControl.Software ∧
    FlowControl.fromStr "SW" = some FlowControl.Software ∧
    FlowControl.fromStr "sw" = some FlowControl.Software ∧
    FlowControl.fromStr "s" = some FlowControl.Software ∧
    FlowControl.fromStr "Hardware" = some FlowControl.Hardware ∧
    FlowControl.fromStr "hardware" = some FlowControl.Hardware ∧
    FlowControl.fromStr "HW" = some FlowControl.Hardware ∧
    FlowControl.fromStr "hw" = some FlowControl.Hardware ∧
    FlowControl.fromStr "h" = some FlowControl.Hardware := by
  refine ⟨?_, ?_, ?_, ?_, ?_, ?_, ?_, ?_, ?_, ?_, ?_, ?_, ?_⟩ <;> rfl

/-- C8: `new(path, baud_rate)` stores the two arguments and fills the
remaining fields with the documented defaults: eight data bits, no parity,
one stop bit, no flow control, and a zero timeout. -/
theorem new_defaults (path : String) (baud_rate : Nat) :
    (new path baud_rate).path = path ∧
    (new path baud_rate).baud_rate = baud_rate ∧
    (new path baud_rate).data_bits = DataBits.Eight ∧
    (new path baud_rate).parity = Parity.None ∧
    (new path baud_rate).stop_bits = StopBits.One ∧
    (new path baud_rate).flow_control = FlowControl.None ∧
    (new path baud_rate).timeout = Duration.fromMillis 0 ∧
    Duration.fromMillis 0 = { secs := 0, nanos := 0 } :=
  ⟨rfl, rfl, rfl, rfl, rfl, rfl, rfl, rfl⟩

/-- C9: each of the seven builder setters replaces exactly its own field
with the given argument and leaves the other six fields of the builder
unchanged. -/
theorem builder_setters_frame (b : SerialPortBuilder) (p : String) (r : Nat)
    (db : DataBits) (fc : FlowControl) (pa : Parity) (sb : StopBits)
    (t : Duration) :
    ((b.setPath p).path = p ∧ (b.setPath p).baud_rate = b.baud_rate ∧
      (b.setPath p).data_bits = b.data_bits ∧
      (b.setPath p).flow_control = b.flow_control ∧
      (b.setPath p).parity = b.parity ∧ (b.setPath p).stop_bits = b.stop_bits ∧
      (b.setPath p).timeout = b.timeout) ∧
    ((b.setBaudRate r).baud_rate = r ∧ (b.setBaudRate r).path = b.path ∧
      (b.setBaudRate r).data_bits = b.data_bits ∧
      (b.setBaudRate r).flow_control = b.flow_control ∧
      (b.setBaudRate r).parity = b.parity ∧
      (b.setBaudRate r).stop_bits = b.stop_bits ∧
      (b.setBaudRate r).timeout = b.timeout) ∧
    ((b.setDataBits db).data_bits = db ∧ (b.setDataBits db).path = b.path ∧
      (b.setDataBits db).baud_rate = b.baud_rate ∧
      (b.setDataBits db).flow_control = b.flow_control ∧
      (b.setDataBits db).parity = b.parity ∧
      (b.setDataBits db).stop_bits = b.stop_bits ∧
      (b.setDataBits db).timeout = b.timeout) ∧
    ((b.setFlowControl fc).flow_control = fc ∧
      (b.setFlowControl fc).path = b.path ∧
      (b.setFlowControl fc).baud_rate = b.baud_rate ∧
      (b.setFlowControl fc).data_bits = b.data_bits ∧
      (b.setFlowControl fc).parity = b.parity ∧
      (b.setFlowControl fc).stop_bits = b.stop_bits ∧
      (b.setFlowControl fc).timeout = b.timeout) ∧
    ((b.setParity pa).parity = pa ∧ (b.setParity pa).path = b.path ∧
      (b.setParity pa).baud_rate = b.baud_rate ∧
      (b.setParity pa).data_bits = b.data_bits ∧
      (b.setParity pa).flow_control = b.flow_control ∧
      (b.setParity pa).stop_bits = b.stop_bits ∧
      (b.setParity pa).timeout = b.timeout) ∧
    ((b.setStopBits sb).stop_bits = sb ∧ (b.setStopBits sb).path = b.path ∧
      (b.setStopBits sb).baud_rate = b.baud_rate ∧
      (b.setStopBits sb).data_bits = b.data_bits ∧
      (b.setStopBits sb).flow_control = b.flow_control ∧
      (b.setStopBits sb).parity = b.parity ∧
      (b.setStopBits sb).timeout = b.timeout) ∧
    ((b.setTimeout t).timeout = t ∧ (b.setTimeout t).path = b.path ∧
      (b.setTimeout t).baud_rate = b.baud_rate ∧
      (b.setTimeout t).data_bits = b.data_bits ∧
      (b.setTimeout t).flow_control = b.flow_control ∧
      (b.setTimeout t).parity = b.parity ∧
      (b.setTimeout t).stop_bits = b.stop_bits) := by
  refine ⟨?_, ?_, ?_, ?_, ?_, ?_, ?_⟩ <;>
    exact ⟨rfl, rfl, rfl, rfl, rfl, rfl, rfl⟩

/-- C6: when the enumerator extracts a usb manufacturer or product string,
the sources are tried in priority order and a later source never overrides
an earlier present one: a present and decodable encoded property wins (its
unescaped value, with spaces restored); only when the encoded property is
absent or fails to decode is the replaced property used (underscores
restored to spaces); and only when both live forms yield nothing is the
hardware-database property consulted, whose value passes through
unchanged. -/
theorem usb_string_priority (unescape : String → Option String)
    (props : String → Option String) (enc rep db : String) :
    (∀ s u, props enc = some s → unescape s = some u →
      live_then_database unescape props enc rep db =
        some (udev_restore_spaces u)) ∧
    ((props enc).bind unescape = none → ∀ r, props rep = some r →
      live_then_database unescape props enc rep db =
        some (udev_restore_spaces r)) ∧
    ((props enc).bind unescape = none → props rep = none →
      live_then_database unescape props enc rep db = props db) := by
  refine ⟨?_, ?_, ?_⟩
  · intro s u hs hu
    simp [live_then_database, udev_property_encoded_or_replaced_as_string, hs, hu,
      Option.orElse]
  · intro henc r hr
    simp [live_then_database, udev_property_encoded_or_replaced_as_string, henc, hr,
      Option.orElse]
  · intro henc hr
    simp [live_then_database, udev_property_encoded_or_replaced_as_string, henc, hr,
      Option.orElse]

/-- C6 witness: on a property table where all three sources are present
and the unescaper succeeds, the encoded source wins. -/
theorem usb_string_priority_witness :
    live_then_database unescapeId propsAll "ID_VENDOR_ENC" "ID_VENDOR"
        "ID_VENDOR_FROM_DATABASE" =
      some (udev_restore_spaces "Encoded_Vendor") ∧
    udev_restore_spaces "Encoded_Vendor" = "Encoded Vendor" :=
  ⟨(usb_string_priority unescapeId propsAll "ID_VENDOR_ENC" "ID_VENDOR"
      "ID_VENDOR_FROM_DATABASE").1 "Encoded_Vendor" "Encoded_Vendor" rfl rfl,
    by decide⟩

/-- C4 counterexample: on the macOS/iOS path the per-device error is
propagated.  A scan over a well-behaved service alone returns its two
records, but adding one service whose property dictionary cannot be read
makes the whole scan return an error, hiding the good service. -/
theorem mac_scan_aborts_on_bad_device :
    available_ports_mac [macGoodDevice] =
      Except.ok
        [{ port_name := "/dev/cu.usbserial-0001",
           port_type := SerialPortType.Unknown },
         { port_name := "/dev/tty.usbserial-0001",
           port_type := SerialPortType.Unknown }] ∧
    available_ports_mac [macGoodDevice, macBadDevice] =
      Except.error ⟨ErrorKind.Unknown, "ERROR"⟩ := ⟨rfl, rfl⟩

/-- C4 (amended): on the linux/libudev path, a device whose classification
by `port_type` fails contributes nothing to the scan: the result equals
the scan without that device and is still a success, so the per-device
error is never propagated. -/
theorem linux_scan_skips_failing_device (unescape : String → Option String)
    (ds1 ds2 : List UdevDevice) (d : UdevDevice) (e : Error)
    (h : port_type unescape d = Except.error e) :
    available_ports_linux unescape (Except.ok (ds1 ++ d :: ds2)) =
      available_ports_linux unescape (Except.ok (ds1 ++ ds2)) ∧
    ∃ l, available_ports_linux unescape (Except.ok (ds1 ++ d :: ds2)) =
      Except.ok l := by
  have hnone : scan_device unescape d = none := by
    unfold scan_device
    cases hp : d.parent with
    | none => rfl
    | some p =>
      cases hd : d.devnode with
      | none => rfl
      | some path =>
        simp [h]
  refine ⟨?_, ⟨_, rfl⟩⟩
  simp [available_ports_linux, List.filterMap_append, hnone]

/-- C4 witness: a linux scan over a healthy device and a usb device with
no vendor-id property skips only the failing device. -/
theorem linux_scan_skips_failing_device_witness :
    available_ports_linux unescapeId
        (Except.ok [platformBusDevice, usbNoVidDevice]) =
      available_ports_linux unescapeId (Except.ok [platformBusDevice]) ∧
    ∃ l, available_ports_linux unescapeId
      (Except.ok [platformBusDevice, usbNoVidDevice]) = Except.ok l := by
  have h := linux_scan_skips_failing_device unescapeId [platformBusDevice] []
    usbNoVidDevice ⟨ErrorKind.Unknown, "key not found"⟩ rfl
  simpa using h

/-- C5 counterexample: a usb-bus device with parent and devnode present,
an ordinary driver and a port that opens fine, but without the
`ID_VENDOR_ID` property, cannot be classified (`port_type` fails on it);
the linux scan omits it entirely instead of reporting it with port type
`Unknown`, even though it is not a `serial8250` node that failed to
open. -/
theorem usb_device_omitted_not_unknown :
    (port_type unescapeId usbNoVidDevice).isOk = false ∧
    usbNoVidDevice.parent = some { driver := some "cp210x" } ∧
    usbNoVidDevice.devnode = some "/dev/ttyUSB7" ∧
    usbNoVidDevice.opensOk = true ∧
    available_ports_linux unescapeId (Except.ok [usbNoVidDevice]) =
      Except.ok [] :=
  ⟨rfl, rfl, rfl, rfl, rfl⟩

/-- Helper: when the guards of the linux loop pass (parent and devnode
present, and not a failing `serial8250` node), the record pushed for a
device is determined by its `port_type` result. -/
theorem scan_device_eq (unescape : String → Option String)
    (d : UdevDevice) (p : UdevParent) (path : String)
    (hp : d.parent = some p) (hd : d.devnode = some path)
    (hcond : (match p.driver with
      | some drv => decide (drv = "serial8250") && !d.opensOk
      | none => false) = false) :
    scan_device unescape d =
      match port_type unescape d with
      | Except.ok pt => some { port_name := path, port_type := pt }
      | Except.error _ => none := by
  unfold scan_device
  rw [hp, hd]
  dsimp only
  rw [hcond]
  simp

/-- C5 (amended): on the linux/libudev path, a discovered device with
parent and devnode that is not a failing `serial8250` node is reported
with port type `Unknown` when its bus type is unrecognized, or when it
has no bus type and no parseable parent modalias; but a device whose
usb classification fails with an error is skipped and not reported, as is
a `serial8250` node that fails to open. -/
theorem linux_scan_classification (unescape : String → Option String)
    (d : UdevDevice) (p : UdevParent) (path : String)
    (hp : d.parent = some p) (hd : d.devnode = some path) :
    (¬(p.driver = some "serial8250" ∧ d.opensOk = false) →
      (∀ s, d.props "ID_BUS" = some s → s ≠ "usb" → s ≠ "pci" →
        scan_device unescape d =
          some { port_name := path, port_type := SerialPortType.Unknown }) ∧
      (d.props "ID_BUS" = none →
        (d.parentModalias.bind fun m => parse_modalias m) = none →
        scan_device unescape d =
          some { port_name := path, port_type := SerialPortType.Unknown })) ∧
    (∀ e, port_type unescape d = Except.error e →
      scan_device unescape d = none) ∧
    (p.driver = some "serial8250" → d.opensOk = false →
      scan_device unescape d = none) := by
  have hcond : ∀ (h8250 : ¬(p.driver = some "serial8250" ∧ d.opensOk = false)),
      (match p.driver with
        | some drv => decide (drv = "serial8250") && !d.opensOk
        | none => false) = false := by
    intro h8250
    cases hdrv : p.driver with
    | none => rfl
    | some drv =>
      by_cases hd8 : drv = "serial8250"
      · subst hd8
        cases hop : d.opensOk with
        | true => simp
        | false => exact (h8250 ⟨hdrv, hop⟩).elim
      · simp [hd8]
  refine ⟨fun h8250 => ⟨?_, ?_⟩, ?_, ?_⟩
  · intro s hbus hu hpci
    rw [scan_device_eq unescape d p path hp hd (hcond h8250)]
    have hpt : port_type unescape d = Except.ok SerialPortType.Unknown := by
      unfold port_type
      rw [hbus]
      simp [hu, hpci]
    rw [hpt]
  · intro hbus hmoda
    rw [scan_device_eq unescape d p path hp hd (hcond h8250)]
    have hpt : port_type unescape d = Except.ok SerialPortType.Unknown := by
      unfold port_type
      rw [hbus]
      dsimp only
      rw [hmoda]
    rw [hpt]
  · intro e he
    unfold scan_device
    rw [hp, hd]
    dsimp only
    rw [he]
    split <;> rfl
  · intro hdrv hop
    unfold scan_device
    rw [hp, hd]
    dsimp only
    rw [hdrv]
    simp [hop]

/-- C5 witness: a device on an unrecognized `platform` bus is reported
with port type `Unknown`. -/
theorem linux_scan_classification_witness :
    scan_device unescapeId platformBusDevice =
      some { port_name := "/dev/ttymxc0", port_type := SerialPortType.Unknown } :=
  ((linux_scan_classification unescapeId platformBusDevice
      { driver := some "imx21-uart" } "/dev/ttymxc0" rfl rfl).1
    (by simp)).1 "platform" rfl (by simp) (by simp)

end Serialport
